import Mathlib

/-
Verification development for the qc_boot protocol engine
(shallow embedding of src/src/protocol.rs).

Machine integers are modelled as `Nat` with explicit bounds (`< 2^32` etc.)
in well-formedness predicates; wire buffers are `List Nat` of byte values.
The external status-code lookup `crate::errors::error_code_to_str` and the
hardware-id table live outside src/; functions that call the lookup take it
as an explicit parameter `errStr : Nat → String`.
-/

set_option maxRecDepth 40000

namespace QcBoot

/-- Little-endian encoding of a `u32` value as 4 bytes. -/
def le32 (n : Nat) : List Nat :=
  [n % 256, n / 256 % 256, n / 65536 % 256, n / 16777216 % 256]

/-- Little-endian encoding of a `u16` value as 2 bytes. -/
def le16 (n : Nat) : List Nat :=
  [n % 256, n / 256 % 256]

/-- Little-endian encoding of a `u64` value as 8 bytes. -/
def le64 (n : Nat) : List Nat :=
  [n % 256, n / 256 % 256, n / 65536 % 256, n / 16777216 % 256,
   n / 4294967296 % 256, n / 1099511627776 % 256,
   n / 281474976710656 % 256, n / 72057594037927936 % 256]

/-- Read a little-endian `u32` from the first four bytes of a buffer.
Missing bytes read as zero, matching a zero-initialized transfer buffer. -/
def rd32 (b : List Nat) : Nat :=
  b.getD 0 0 + 256 * b.getD 1 0 + 65536 * b.getD 2 0 + 16777216 * b.getD 3 0

/-- Read a little-endian `u16` from the first two bytes of a buffer. -/
def rd16 (b : List Nat) : Nat :=
  b.getD 0 0 + 256 * b.getD 1 0

/-- Read a little-endian `u64` from the first eight bytes of a buffer. -/
def rd64 (b : List Nat) : Nat :=
  b.getD 0 0 + 256 * b.getD 1 0 + 65536 * b.getD 2 0 + 16777216 * b.getD 3 0
  + 4294967296 * b.getD 4 0 + 1099511627776 * b.getD 5 0
  + 281474976710656 * b.getD 6 0 + 72057594037927936 * b.getD 7 0

/-- Read a little-endian `u32` at byte offset `off`. -/
def rd32At (b : List Nat) (off : Nat) : Nat := rd32 (b.drop off)

/-- Read a little-endian `u16` at byte offset `off`. -/
def rd16At (b : List Nat) (off : Nat) : Nat := rd16 (b.drop off)

/-- Read a little-endian `u64` at byte offset `off`. -/
def rd64At (b : List Nat) (off : Nat) : Nat := rd64 (b.drop off)

/- ----- Transport (usb_read_n / usb_read / usb_send) ----- -/

/-- Outcome of one bulk USB transfer, as seen by the async block inside
`usb_read_n` / `usb_send`: the transfer completed with `data`, completed
with a device-level I/O failure carrying a status, or the 5-second timer
fired first. -/
inductive TransferOutcome
  | ok (data : List Nat)
  | ioError (status : Nat)
  | timeout
deriving DecidableEq

/-- The error type of the inner `Result<usize>`: `TimedOut` from the timer
arm, or `io::Error::other(status)` wrapping the transfer status. -/
inductive IoErr
  | timedOut
  | other (status : Nat)
deriving DecidableEq

/-- The `Result<usize>` computed by the race inside `usb_read_n`
(`Ok(n)` with the received byte count) — the Rust code binds this result
to `_`, discarding it. -/
def usbReadInner (o : TransferOutcome) : Except IoErr Nat :=
  match o with
  | .ok data => .ok data.length
  | .ioError status => .error (.other status)
  | .timeout => .error .timedOut

/-- The `Result<usize>` computed by the race inside `usb_send`
(`Ok(n)` with the actual transmitted length) — likewise discarded. -/
def usbSendInner (o : TransferOutcome) : Except IoErr Nat :=
  match o with
  | .ok data => .ok data.length
  | .ioError status => .error (.other status)
  | .timeout => .error .timedOut

/-- `usb_read_n`: allocates a zero buffer of `size` bytes, copies the
received data into its front on success, and returns the buffer
unconditionally (the inner `Result` is bound to `_`).
`RequestBuffer::new(size)` guarantees at most `size` received bytes. -/
def usb_read_n (size : Nat) (o : TransferOutcome) : List Nat :=
  match o with
  | .ok data => data.take size ++ List.replicate (size - (data.take size).length) 0
  | .ioError _ => List.replicate size 0
  | .timeout => List.replicate size 0

/-- `TRANSFER_SIZE` constant (0x400 bytes). -/
def TRANSFER_SIZE : Nat := 0x400

/-- `usb_read`: a `usb_read_n` of `TRANSFER_SIZE` bytes. -/
def usb_read (o : TransferOutcome) : List Nat := usb_read_n TRANSFER_SIZE o

/-- `usb_send` discards its inner `Result` and returns unit. -/
def usb_send (_o : TransferOutcome) : Unit := ()

/- ----- Sahara message type constants ----- -/

def SAHARA_HELLO_REQUEST : Nat := 0x1
def SAHARA_HELLO_RESPONSE : Nat := 0x2
def SAHARA_READ_DATA : Nat := 0x3
def SAHARA_END_OF_TRANSFER : Nat := 0x4
def SAHARA_DONE_REQUEST : Nat := 0x5
def SAHARA_DONE_RESPONSE : Nat := 0x6
def SAHARA_RESET_REQUEST : Nat := 0x7
def SAHARA_RESET_RESPONSE : Nat := 0x8
def SAHARA_MEMORY_DEBUG : Nat := 0x9
def SAHARA_MEMORY_READ : Nat := 0xa
def SAHARA_READY : Nat := 0xb
def SAHARA_SWITCH_MODE : Nat := 0xc
def SAHARA_EXECUTE_REQUEST : Nat := 0xd
def SAHARA_EXECUTE_RESPONSE : Nat := 0xe
def SAHARA_EXECUTE_DATA : Nat := 0xf

/- ----- Packet catalog (struct definitions, lines 95-220) -----
Each struct is `repr(C, packed)` with little-endian integer fields, encoded
by zerocopy `as_bytes` (field bytes in order, no padding) and decoded by
`read_from_prefix` (requires the buffer to hold at least the struct size).
`WF` states the machine-integer field bounds and, for packets that carry a
header, that the header `length` field equals the struct's byte size (the
valid range per the wire format: `length` must equal the encoded size). -/

structure PacketHeader where
  message_type : Nat
  length : Nat
deriving DecidableEq

def PacketHeader.encode (p : PacketHeader) : List Nat :=
  le32 p.message_type ++ le32 p.length

def PacketHeader.decode (b : List Nat) : Option PacketHeader :=
  if 8 ≤ b.length then some ⟨rd32At b 0, rd32At b 4⟩ else none

def PacketHeader.WF (p : PacketHeader) : Prop :=
  p.message_type < 4294967296 ∧ p.length < 4294967296

instance (p : PacketHeader) : Decidable p.WF := by
  unfold PacketHeader.WF; infer_instance

structure HelloRequest where
  header : PacketHeader
  version : Nat
  compatible : Nat
  max_len : Nat
  mode : Nat
deriving DecidableEq

def HelloRequest.encode (p : HelloRequest) : List Nat :=
  p.header.encode ++ le32 p.version ++ le32 p.compatible
    ++ le32 p.max_len ++ le32 p.mode

def HelloRequest.decode (b : List Nat) : Option HelloRequest :=
  if 24 ≤ b.length then
    some ⟨⟨rd32At b 0, rd32At b 4⟩, rd32At b 8, rd32At b 12,
      rd32At b 16, rd32At b 20⟩
  else none

def HelloRequest.WF (p : HelloRequest) : Prop :=
  p.header.message_type < 4294967296 ∧ p.header.length = 24
  ∧ p.version < 4294967296 ∧ p.compatible < 4294967296
  ∧ p.max_len < 4294967296 ∧ p.mode < 4294967296

instance (p : HelloRequest) : Decidable p.WF := by
  unfold HelloRequest.WF; infer_instance

/-- The Rust field `rest : [u32; 6]` is modelled as six u32 fields. -/
structure HelloResponse where
  header : PacketHeader
  version : Nat
  compatible : Nat
  status : Nat
  mode : Nat
  rest0 : Nat
  rest1 : Nat
  rest2 : Nat
  rest3 : Nat
  rest4 : Nat
  rest5 : Nat
deriving DecidableEq

def HelloResponse.encode (p : HelloResponse) : List Nat :=
  p.header.encode ++ le32 p.version ++ le32 p.compatible ++ le32 p.status
    ++ le32 p.mode ++ le32 p.rest0 ++ le32 p.rest1 ++ le32 p.rest2
    ++ le32 p.rest3 ++ le32 p.rest4 ++ le32 p.rest5

def HelloResponse.decode (b : List Nat) : Option HelloResponse :=
  if 48 ≤ b.length then
    some ⟨⟨rd32At b 0, rd32At b 4⟩, rd32At b 8, rd32At b 12, rd32At b 16,
      rd32At b 20, rd32At b 24, rd32At b 28, rd32At b 32, rd32At b 36,
      rd32At b 40, rd32At b 44⟩
  else none

def HelloResponse.WF (p : HelloResponse) : Prop :=
  p.header.message_type < 4294967296 ∧ p.header.length = 48
  ∧ p.version < 4294967296 ∧ p.compatible < 4294967296
  ∧ p.status < 4294967296 ∧ p.mode < 4294967296
  ∧ p.rest0 < 4294967296 ∧ p.rest1 < 4294967296 ∧ p.rest2 < 4294967296
  ∧ p.rest3 < 4294967296 ∧ p.rest4 < 4294967296 ∧ p.rest5 < 4294967296

instance (p : HelloResponse) : Decidable p.WF := by
  unfold HelloResponse.WF; infer_instance

/-- `HELLO_RESPONSE_SIZE = size_of::<HelloResponse>()`. -/
def HELLO_RESPONSE_SIZE : Nat := 48

structure ResetRequest where
  header : PacketHeader
deriving DecidableEq

def ResetRequest.encode (p : ResetRequest) : List Nat := p.header.encode

def ResetRequest.decode (b : List Nat) : Option ResetRequest :=
  if 8 ≤ b.length then some ⟨⟨rd32At b 0, rd32At b 4⟩⟩ else none

def ResetRequest.WF (p : ResetRequest) : Prop :=
  p.header.message_type < 4294967296 ∧ p.header.length = 8

instance (p : ResetRequest) : Decidable p.WF := by
  unfold ResetRequest.WF; infer_instance

/-- `RESET_REQUEST_SIZE = size_of::<ResetRequest>()`. -/
def RESET_REQUEST_SIZE : Nat := 8

structure DoneRequest where
  header : PacketHeader
deriving DecidableEq

def DoneRequest.encode (p : DoneRequest) : List Nat := p.header.encode

def DoneRequest.decode (b : List Nat) : Option DoneRequest :=
  if 8 ≤ b.length then some ⟨⟨rd32At b 0, rd32At b 4⟩⟩ else none

def DoneRequest.WF (p : DoneRequest) : Prop :=
  p.header.message_type < 4294967296 ∧ p.header.length = 8

instance (p : DoneRequest) : Decidable p.WF := by
  unfold DoneRequest.WF; infer_instance

/-- `DONE_REQUEST_SIZE = size_of::<DoneRequest>()`. -/
def DONE_REQUEST_SIZE : Nat := 8

structure ReadRequest32 where
  header : PacketHeader
  image : Nat
  offset : Nat
  length : Nat
deriving DecidableEq

def ReadRequest32.encode (p : ReadRequest32) : List Nat :=
  p.header.encode ++ le32 p.image ++ le32 p.offset ++ le32 p.length

def ReadRequest32.decode (b : List Nat) : Option ReadRequest32 :=
  if 20 ≤ b.length then
    some ⟨⟨rd32At b 0, rd32At b 4⟩, rd32At b 8, rd32At b 12, rd32At b 16⟩
  else none

def ReadRequest32.WF (p : ReadRequest32) : Prop :=
  p.header.message_type < 4294967296 ∧ p.header.length = 20
  ∧ p.image < 4294967296 ∧ p.offset < 4294967296 ∧ p.length < 4294967296

instance (p : ReadRequest32) : Decidable p.WF := by
  unfold ReadRequest32.WF; infer_instance

structure ReadRequest64 where
  header : PacketHeader
  image : Nat
  offset : Nat
  length : Nat
deriving DecidableEq

def ReadRequest64.encode (p : ReadRequest64) : List Nat :=
  p.header.encode ++ le64 p.image ++ le64 p.offset ++ le64 p.length

def ReadRequest64.decode (b : List Nat) : Option ReadRequest64 :=
  if 32 ≤ b.length then
    some ⟨⟨rd32At b 0, rd32At b 4⟩, rd64At b 8, rd64At b 16, rd64At b 24⟩
  else none

def ReadRequest64.WF (p : ReadRequest64) : Prop :=
  p.header.message_type < 4294967296 ∧ p.header.length = 32
  ∧ p.image < 18446744073709551616 ∧ p.offset < 18446744073709551616
  ∧ p.length < 18446744073709551616

instance (p : ReadRequest64) : Decidable p.WF := by
  unfold ReadRequest64.WF; infer_instance

/-- Response to all sorts of requests, may indicate an error. -/
structure EndOfTransfer where
  header : PacketHeader
  image : Nat
  status : Nat
deriving DecidableEq

def EndOfTransfer.encode (p : EndOfTransfer) : List Nat :=
  p.header.encode ++ le32 p.image ++ le32 p.status

def EndOfTransfer.decode (b : List Nat) : Option EndOfTransfer :=
  if 16 ≤ b.length then
    some ⟨⟨rd32At b 0, rd32At b 4⟩, rd32At b 8, rd32At b 12⟩
  else none

def EndOfTransfer.WF (p : EndOfTransfer) : Prop :=
  p.header.message_type < 4294967296 ∧ p.header.length = 16
  ∧ p.image < 4294967296 ∧ p.status < 4294967296

instance (p : EndOfTransfer) : Decidable p.WF := by
  unfold EndOfTransfer.WF; infer_instance

structure DoneResponse where
  header : PacketHeader
  status : Nat
deriving DecidableEq

def DoneResponse.encode (p : DoneResponse) : List Nat :=
  p.header.encode ++ le32 p.status

def DoneResponse.decode (b : List Nat) : Option DoneResponse :=
  if 12 ≤ b.length then
    some ⟨⟨rd32At b 0, rd32At b 4⟩, rd32At b 8⟩
  else none

def DoneResponse.WF (p : DoneResponse) : Prop :=
  p.header.message_type < 4294967296 ∧ p.header.length = 12
  ∧ p.status < 4294967296

instance (p : DoneResponse) : Decidable p.WF := by
  unfold DoneResponse.WF; infer_instance

/-- This is both for request and data. -/
structure Exec where
  header : PacketHeader
  command : Nat
deriving DecidableEq

def Exec.encode (p : Exec) : List Nat :=
  p.header.encode ++ le32 p.command

def Exec.decode (b : List Nat) : Option Exec :=
  if 12 ≤ b.length then
    some ⟨⟨rd32At b 0, rd32At b 4⟩, rd32At b 8⟩
  else none

def Exec.WF (p : Exec) : Prop :=
  p.header.message_type < 4294967296 ∧ p.header.length = 12
  ∧ p.command < 4294967296

instance (p : Exec) : Decidable p.WF := by
  unfold Exec.WF; infer_instance

/-- `EXEC_SIZE = size_of::<Exec>()`. -/
def EXEC_SIZE : Nat := 12

structure MemoryRead32 where
  header : PacketHeader
  address : Nat
  size : Nat
deriving DecidableEq

def MemoryRead32.encode (p : MemoryRead32) : List Nat :=
  p.header.encode ++ le32 p.address ++ le32 p.size

def MemoryRead32.decode (b : List Nat) : Option MemoryRead32 :=
  if 16 ≤ b.length then
    some ⟨⟨rd32At b 0, rd32At b 4⟩, rd32At b 8, rd32At b 12⟩
  else none

def MemoryRead32.WF (p : MemoryRead32) : Prop :=
  p.header.message_type < 4294967296 ∧ p.header.length = 16
  ∧ p.address < 4294967296 ∧ p.size < 4294967296

instance (p : MemoryRead32) : Decidable p.WF := by
  unfold MemoryRead32.WF; infer_instance

/-- `MEMORY_READ_SIZE = size_of::<MemoryRead32>()`. -/
def MEMORY_READ_SIZE : Nat := 16

/-- Response data to hardware ID command (no header). -/
structure HardwareId where
  model : Nat
  oem : Nat
  id : Nat
deriving DecidableEq

def HardwareId.encode (p : HardwareId) : List Nat :=
  le16 p.model ++ le16 p.oem ++ le32 p.id

def HardwareId.decode (b : List Nat) : Option HardwareId :=
  if 8 ≤ b.length then
    some ⟨rd16At b 0, rd16At b 2, rd32At b 4⟩
  else none

def HardwareId.WF (p : HardwareId) : Prop :=
  p.model < 65536 ∧ p.oem < 65536 ∧ p.id < 4294967296

instance (p : HardwareId) : Decidable p.WF := by
  unfold HardwareId.WF; infer_instance

/-- Response data to serial number command (8 raw bytes, no header). -/
structure SerialNo where
  serial : List Nat
deriving DecidableEq

def SerialNo.encode (p : SerialNo) : List Nat := p.serial

def SerialNo.decode (b : List Nat) : Option SerialNo :=
  if 8 ≤ b.length then some ⟨b.take 8⟩ else none

def SerialNo.WF (p : SerialNo) : Prop :=
  p.serial.length = 8 ∧ ∀ x ∈ p.serial, x < 256

instance (p : SerialNo) : Decidable p.WF := by
  unfold SerialNo.WF; infer_instance

/-- Response data to OEM PK hash command (three 32-byte blocks, no header). -/
structure OemPkHash where
  hash1 : List Nat
  hash2 : List Nat
  hash3 : List Nat
deriving DecidableEq

def OemPkHash.encode (p : OemPkHash) : List Nat :=
  p.hash1 ++ p.hash2 ++ p.hash3

def OemPkHash.decode (b : List Nat) : Option OemPkHash :=
  if 96 ≤ b.length then
    some ⟨b.take 32, (b.drop 32).take 32, (b.drop 64).take 32⟩
  else none

def OemPkHash.WF (p : OemPkHash) : Prop :=
  p.hash1.length = 32 ∧ p.hash2.length = 32 ∧ p.hash3.length = 32
  ∧ (∀ x ∈ p.hash1, x < 256) ∧ (∀ x ∈ p.hash2, x < 256)
  ∧ (∀ x ∈ p.hash3, x < 256)

instance (p : OemPkHash) : Decidable p.WF := by
  unfold OemPkHash.WF; infer_instance

/- ----- Protocol modes and exec commands ----- -/

/-- Protocol modes (`#[repr(u32)] pub enum Mode`). -/
inductive Mode
  | ImageTxPending
  | ImageTxComplete
  | MemoryDebug
  | Command
deriving DecidableEq

/-- The `mode as u32` cast. -/
def Mode.toNat : Mode → Nat
  | .ImageTxPending => 0
  | .ImageTxComplete => 1
  | .MemoryDebug => 2
  | .Command => 3

/-- Exec commands (`#[repr(u32)] enum Command`). -/
inductive Command
  | None
  | GetSerialNum
  | GetHardwareId
  | GetOemPkHash
  | GetSblVersion
  | GetCommandIdList
  | GetTrainingData
deriving DecidableEq

/-- The `command as u32` cast. -/
def Command.toNat : Command → Nat
  | .None => 0
  | .GetSerialNum => 0x01
  | .GetHardwareId => 0x02
  | .GetOemPkHash => 0x03
  | .GetSblVersion => 0x07
  | .GetCommandIdList => 0x08
  | .GetTrainingData => 0x09

/- ----- Protocol engine ----- -/

/-- Typed rendering of the error strings `exec` builds with `format!`:
`"Command failed with status {status:02x}: {msg}"` and
`"Unexpected message type {mt:02x}"`. -/
inductive ProtoErr
  | commandFailed (status : Nat) (msg : String)
  | unexpectedMessage (mt : Nat)
deriving DecidableEq

/-- How a protocol function finishes: a normal return, a recoverable
`Err` (Rust `Result::Err`), or a process abort (`panic!` / a failed
`assert_eq!` / `.unwrap()` on an `Err` or `None`). -/
inductive Outcome (α : Type)
  | ok (a : α)
  | err (e : ProtoErr)
  | panic (msg : String)
deriving DecidableEq

/-- True exactly on the `panic` outcome. -/
def Outcome.isPanic {α : Type} : Outcome α → Bool
  | .panic _ => true
  | _ => false

/-- True exactly on the recoverable `err` outcome. -/
def Outcome.isErr {α : Type} : Outcome α → Bool
  | .err _ => true
  | _ => false

/-- `hello`: reads one packet, decodes it as `HelloRequest`
(via `read_from_prefix(..).unwrap()`), `assert_eq!`s the message type
against `SAHARA_HELLO_REQUEST`, and returns `req.mode` (only the mode;
the function's return type is a single `u32`). -/
def hello (o : TransferOutcome) : Outcome Nat :=
  let b := usb_read o
  match HelloRequest.decode b with
  | none => .panic "called unwrap on a None value"
  | some req =>
    if req.header.message_type = SAHARA_HELLO_REQUEST then .ok req.mode
    else .panic "assertion failed: mt == SAHARA_HELLO_REQUEST"

/-- Everything observable about one `switch_mode` call: the packets
written, the `error!` log emitted for an `EndOfTransfer` reply (status
and looked-up message), the `println!` diagnostic emitted for a
non-READY reply (the actual message type), and the return value. -/
structure SwitchModeRun where
  writes : List (List Nat)
  errorLog : Option (Nat × String)
  failLog : Option Nat
  result : Outcome Unit
deriving DecidableEq

/-- `switch_mode`: sends a `HelloResponse` carrying the fixed
`compatible = 1`, `status = 0`, the session `version` and the requested
`mode`; reads the reply; logs (`error!`) the decoded status and mapped
message if the reply is `EndOfTransfer`; prints a failure note if the
reply's type is not `SAHARA_READY`. It always returns unit (the
`panic!()` in the non-READY arm is commented out in the source). -/
def switch_mode (errStr : Nat → String) (version : Nat) (mode : Mode)
    (o : TransferOutcome) : SwitchModeRun :=
  let res : HelloResponse :=
    ⟨⟨SAHARA_HELLO_RESPONSE, HELLO_RESPONSE_SIZE⟩, version, 1, 0,
      mode.toNat, 0, 0, 0, 0, 0, 0⟩
  let w := res.encode
  let b := usb_read o
  match PacketHeader.decode b with
  | none => ⟨[w], none, none, .panic "called unwrap on a None value"⟩
  | some header =>
    let mt := header.message_type
    if mt = SAHARA_END_OF_TRANSFER then
      match EndOfTransfer.decode b with
      | none => ⟨[w], none, none, .panic "called unwrap on a None value"⟩
      | some eot =>
        let status := eot.status
        let eLog := some (status, errStr status)
        if mt ≠ SAHARA_READY then ⟨[w], eLog, some mt, .ok ()⟩
        else ⟨[w], eLog, none, .ok ()⟩
    else
      if mt ≠ SAHARA_READY then ⟨[w], none, some mt, .ok ()⟩
      else ⟨[w], none, none, .ok ()⟩

/-- Everything observable about one `exec` call: the packets written and
the returned `Result`. -/
structure ExecRun where
  writes : List (List Nat)
  result : Outcome Unit
deriving DecidableEq

/-- The phase-one `EXECUTE_REQUEST` packet `exec` sends for `command`. -/
def execRequestPacket (command : Command) : List Nat :=
  Exec.encode ⟨⟨SAHARA_EXECUTE_REQUEST, EXEC_SIZE⟩, command.toNat⟩

/-- The phase-two `EXECUTE_DATA` packet `exec` sends for `command`. -/
def execDataPacket (command : Command) : List Nat :=
  Exec.encode ⟨⟨SAHARA_EXECUTE_DATA, EXEC_SIZE⟩, command.toNat⟩

/-- `exec`: sends the `EXECUTE_REQUEST` packet, reads the reply; an
`EndOfTransfer` reply returns the command-failed error with the decoded
status; any other type that is not `EXECUTE_RESPONSE` returns the
unexpected-message error; otherwise sends the `EXECUTE_DATA` packet
and returns `Ok(())`. -/
def exec (errStr : Nat → String) (command : Command)
    (o : TransferOutcome) : ExecRun :=
  let req := execRequestPacket command
  let b := usb_read o
  match PacketHeader.decode b with
  | none => ⟨[req], .panic "called unwrap on a None value"⟩
  | some header =>
    let mt := header.message_type
    if mt = SAHARA_END_OF_TRANSFER then
      match EndOfTransfer.decode b with
      | none => ⟨[req], .panic "called unwrap on a None value"⟩
      | some eot =>
        let status := eot.status
        ⟨[req], .err (.commandFailed status (errStr status))⟩
    else if mt ≠ SAHARA_EXECUTE_RESPONSE then
      ⟨[req], .err (.unexpectedMessage mt)⟩
    else
      ⟨[req, execDataPacket command], .ok ()⟩

/-- Everything observable about one `info` call: the exec commands issued
(in order), the decoded payloads, and how the call finished. -/
structure InfoRun where
  execCmds : List Command
  serial : Option (List Nat)
  hw : Option HardwareId
  oem : Option OemPkHash
  result : Outcome Unit
deriving DecidableEq

/-- The `.unwrap()` panic message for an `Err` from `exec`. -/
def unwrapMsg (_e : ProtoErr) : String :=
  "called unwrap on an Err value"

/-- `info`: `exec(GetSerialNum).unwrap()`, read + decode `SerialNo`;
then, only when `version < 3`, `exec(GetHardwareId).unwrap()`, read +
decode `HardwareId`, `exec(GetOemPkHash).unwrap()`, read + decode
`OemPkHash`. The `GetSblVersion` / `GetCommandIdList` block is inside
`if false` in the source and never runs. Reads are numbered in order and
drawn from `os`. -/
def info (errStr : Nat → String) (version : Nat)
    (os : Nat → TransferOutcome) : InfoRun :=
  let r1 := exec errStr Command.GetSerialNum (os 0)
  match r1.result with
  | .panic m => ⟨[Command.GetSerialNum], none, none, none, .panic m⟩
  | .err e => ⟨[Command.GetSerialNum], none, none, none, .panic (unwrapMsg e)⟩
  | .ok _ =>
    let b := usb_read (os 1)
    match SerialNo.decode b with
    | none =>
      ⟨[Command.GetSerialNum], none, none, none,
        .panic "called unwrap on a None value"⟩
    | some d =>
      if version < 3 then
        let r2 := exec errStr Command.GetHardwareId (os 2)
        match r2.result with
        | .panic m =>
          ⟨[Command.GetSerialNum, Command.GetHardwareId], some d.serial,
            none, none, .panic m⟩
        | .err e =>
          ⟨[Command.GetSerialNum, Command.GetHardwareId], some d.serial,
            none, none, .panic (unwrapMsg e)⟩
        | .ok _ =>
          let b2 := usb_read (os 3)
          match HardwareId.decode b2 with
          | none =>
            ⟨[Command.GetSerialNum, Command.GetHardwareId], some d.serial,
              none, none, .panic "called unwrap on a None value"⟩
          | some h =>
            let r3 := exec errStr Command.GetOemPkHash (os 4)
            match r3.result with
            | .panic m =>
              ⟨[Command.GetSerialNum, Command.GetHardwareId,
                Command.GetOemPkHash], some d.serial, some h, none, .panic m⟩
            | .err e =>
              ⟨[Command.GetSerialNum, Command.GetHardwareId,
                Command.GetOemPkHash], some d.serial, some h, none,
                .panic (unwrapMsg e)⟩
            | .ok _ =>
              let b3 := usb_read (os 5)
              match OemPkHash.decode b3 with
              | none =>
                ⟨[Command.GetSerialNum, Command.GetHardwareId,
                  Command.GetOemPkHash], some d.serial, some h, none,
                  .panic "called unwrap on a None value"⟩
              | some k =>
                ⟨[Command.GetSerialNum, Command.GetHardwareId,
                  Command.GetOemPkHash], some d.serial, some h, some k,
                  .ok ()⟩
      else ⟨[Command.GetSerialNum], some d.serial, none, none, .ok ()⟩

/-- Everything observable about one `read_mem` call: the inner
`switch_mode` run, all packets written (mode-switch response, then the
`MemoryRead32` request), the byte count requested from the transport,
and the result (the 16-byte zero-padded buffer on success). -/
structure ReadMemRun where
  switchRun : SwitchModeRun
  writes : List (List Nat)
  readSize : Nat
  result : Outcome (List Nat)
deriving DecidableEq

/-- `read_mem`: `switch_mode(MemoryDebug)`, then sends
`MemoryRead32 { address, size }` with the fixed `size = 0x10`, reads
`size` bytes, panics if the reply is `EndOfTransfer`, and otherwise
just logs the buffer (no received-length check). -/
def read_mem (errStr : Nat → String) (version : Nat) (address : Nat)
    (oSwitch oRead : TransferOutcome) : ReadMemRun :=
  let sw := switch_mode errStr version Mode.MemoryDebug oSwitch
  let size : Nat := 0x10
  let pkt := MemoryRead32.encode
    ⟨⟨SAHARA_MEMORY_READ, MEMORY_READ_SIZE⟩, address, size⟩
  let res := usb_read_n size oRead
  match PacketHeader.decode res with
  | none =>
    ⟨sw, sw.writes ++ [pkt], size, .panic "called unwrap on a None value"⟩
  | some header =>
    if header.message_type = SAHARA_END_OF_TRANSFER then
      match EndOfTransfer.decode res with
      | none =>
        ⟨sw, sw.writes ++ [pkt], size,
          .panic "called unwrap on a None value"⟩
      | some eot =>
        let status := eot.status
        let msg := errStr status
        ⟨sw, sw.writes ++ [pkt], size,
          .panic s!"Reading memory failed with status {status}: {msg}"⟩
    else
      ⟨sw, sw.writes ++ [pkt], size, .ok res⟩

/-- Everything observable about one `reset` or `end` request/reply
exchange: packets written and the result. -/
structure SimpleRun where
  writes : List (List Nat)
  result : Outcome Unit
deriving DecidableEq

/-- `reset`: sends the `ResetRequest`, reads a reply (sliced to 32
bytes), panics if it is `EndOfTransfer`, and otherwise returns unit
(logging whether the type was `RESET_RESPONSE`). -/
def reset (errStr : Nat → String) (o : TransferOutcome) : SimpleRun :=
  let pkt := ResetRequest.encode ⟨⟨SAHARA_RESET_REQUEST, RESET_REQUEST_SIZE⟩⟩
  let res := (usb_read o).take 32
  match PacketHeader.decode res with
  | none => ⟨[pkt], .panic "called unwrap on a None value"⟩
  | some header =>
    if header.message_type = SAHARA_END_OF_TRANSFER then
      match EndOfTransfer.decode res with
      | none => ⟨[pkt], .panic "called unwrap on a None value"⟩
      | some eot =>
        let status := eot.status
        let msg := errStr status
        ⟨[pkt], .panic s!"Reset failed with status {status}: {msg}"⟩
    else ⟨[pkt], .ok ()⟩

/-- Everything observable about one `end` call. -/
structure EndRun where
  switchRun : SwitchModeRun
  writes : List (List Nat)
  result : Outcome Unit
deriving DecidableEq

/-- `end`: `switch_mode(ImageTxPending)`, sends the `DoneRequest`, reads
a reply (sliced to 32 bytes), panics if it is `EndOfTransfer`, and
otherwise returns unit (logging whether the type was `DONE_RESPONSE`). -/
def end' (errStr : Nat → String) (version : Nat)
    (oSwitch oDone : TransferOutcome) : EndRun :=
  let sw := switch_mode errStr version Mode.ImageTxPending oSwitch
  let pkt := DoneRequest.encode ⟨⟨SAHARA_DONE_REQUEST, DONE_REQUEST_SIZE⟩⟩
  let res := (usb_read oDone).take 32
  match PacketHeader.decode res with
  | none =>
    ⟨sw, sw.writes ++ [pkt], .panic "called unwrap on a None value"⟩
  | some header =>
    if header.message_type = SAHARA_END_OF_TRANSFER then
      match EndOfTransfer.decode res with
      | none =>
        ⟨sw, sw.writes ++ [pkt], .panic "called unwrap on a None value"⟩
      | some eot =>
        let status := eot.status
        let msg := errStr status
        ⟨sw, sw.writes ++ [pkt],
          .panic s!"Done failed with status {status}: {msg}"⟩
    else ⟨sw, sw.writes ++ [pkt], .ok ()⟩

/- ----- Interface claiming (claim_interface) ----- -/

/-- `CLAIM_INTERFACE_TIMEOUT` in microseconds (1 second). -/
def CLAIM_INTERFACE_TIMEOUT_US : Nat := 1000000

/-- `CLAIM_INTERFACE_PERIOD` in microseconds (200 µs). -/
def CLAIM_INTERFACE_PERIOD_US : Nat := 200

/-- `claim_interface`: the bounded retry loop. `attempt k` is the outcome
of the `k`-th `d.claim_interface(ii)` call; `extra k` is any additional
wall-clock time (µs) the `k`-th failed iteration consumes beyond the
fixed 200 µs sleep; `t` is the elapsed time at the loop-head check
`Instant::now() <= now + CLAIM_INTERFACE_TIMEOUT`. Returns the index of
the successful attempt, or the error string after the deadline. -/
def claim_interface (attempt : Nat → Bool) (extra : Nat → Nat)
    (k t : Nat) : Except String Nat :=
  if h : t ≤ CLAIM_INTERFACE_TIMEOUT_US then
    if attempt k then .ok k
    else claim_interface attempt extra (k + 1)
      (t + (CLAIM_INTERFACE_PERIOD_US + extra k))
  else .error "failure claiming USB interface"
termination_by CLAIM_INTERFACE_TIMEOUT_US + 1 - t
decreasing_by
  simp only [CLAIM_INTERFACE_TIMEOUT_US, CLAIM_INTERFACE_PERIOD_US] at *
  omega

/-- The number of `d.claim_interface` attempts the loop performs,
mirroring the structure of `claim_interface`. -/
def claimAttemptCount (attempt : Nat → Bool) (extra : Nat → Nat)
    (k t : Nat) : Nat :=
  if h : t ≤ CLAIM_INTERFACE_TIMEOUT_US then
    if attempt k then 1
    else 1 + claimAttemptCount attempt extra (k + 1)
      (t + (CLAIM_INTERFACE_PERIOD_US + extra k))
  else 0
termination_by CLAIM_INTERFACE_TIMEOUT_US + 1 - t
decreasing_by
  simp only [CLAIM_INTERFACE_TIMEOUT_US, CLAIM_INTERFACE_PERIOD_US] at *
  omega

/-- The interface-claim step of `connect`:
`let i = claim_interface(&d, ii).unwrap();` — an `Err` from the bounded
retry loop is unwrapped, so the session panics instead of returning the
claim-failure error to its caller. On success it yields the claimed
interface (the successful attempt's index in this model). -/
def connect_claim (attempt : Nat → Bool) (extra : Nat → Nat)
    (t0 : Nat) : Outcome Nat :=
  match claim_interface attempt extra 0 t0 with
  | .ok i => .ok i
  | .error e => .panic ("called unwrap on an Err value: " ++ e)

/- ----- Codec helper lemmas ----- -/

lemma le32_length (n : Nat) : (le32 n).length = 4 := by simp [le32]

lemma le16_length (n : Nat) : (le16 n).length = 2 := by simp [le16]

lemma le64_length (n : Nat) : (le64 n).length = 8 := by simp [le64]

lemma rd32_le32_append (n : Nat) (rest : List Nat) (h : n < 4294967296) :
    rd32 (le32 n ++ rest) = n := by
  simp [rd32, le32]
  omega

lemma rd16_le16_append (n : Nat) (rest : List Nat) (h : n < 65536) :
    rd16 (le16 n ++ rest) = n := by
  simp [rd16, le16]
  omega

lemma rd64_le64_append (n : Nat) (rest : List Nat)
    (h : n < 18446744073709551616) :
    rd64 (le64 n ++ rest) = n := by
  simp [rd64, le64]
  omega

lemma drop_le32_append (n : Nat) (rest : List Nat) (k : Nat) :
    (le32 n ++ rest).drop (k + 4) = rest.drop k := rfl

lemma drop_le16_append (n : Nat) (rest : List Nat) (k : Nat) :
    (le16 n ++ rest).drop (k + 2) = rest.drop k := rfl

lemma drop_le64_append (n : Nat) (rest : List Nat) (k : Nat) :
    (le64 n ++ rest).drop (k + 8) = rest.drop k := rfl

lemma rd64_le64 (n : Nat) (h : n < 18446744073709551616) :
    rd64 (le64 n) = n := by
  simpa using rd64_le64_append n [] h

/- ----- Per-packet round-trip lemmas ----- -/

lemma packetHeader_roundtrip (p : PacketHeader) (h : p.WF) :
    PacketHeader.decode p.encode = some p ∧ p.encode.length = 8 := by
  obtain ⟨mt, len⟩ := p
  simp only [PacketHeader.WF] at h
  obtain ⟨h1, h2⟩ := h
  refine ⟨?_, by simp [PacketHeader.encode, le32]⟩
  simp [PacketHeader.decode, PacketHeader.encode, le32, rd32At, rd32]
  omega

lemma helloRequest_roundtrip (p : HelloRequest) (h : p.WF) :
    HelloRequest.decode p.encode = some p ∧ p.encode.length = 24 := by
  obtain ⟨⟨mt, len⟩, v, c, m, mo⟩ := p
  simp only [HelloRequest.WF] at h
  obtain ⟨h1, h2, h3, h4, h5, h6⟩ := h
  subst h2
  refine ⟨?_, by simp [HelloRequest.encode, PacketHeader.encode, le32]⟩
  simp [HelloRequest.decode, HelloRequest.encode, PacketHeader.encode,
    le32, rd32At, rd32]
  omega

lemma helloResponse_roundtrip (p : HelloResponse) (h : p.WF) :
    HelloResponse.decode p.encode = some p ∧ p.encode.length = 48 := by
  obtain ⟨⟨mt, len⟩, v, c, s, mo, r0, r1, r2, r3, r4, r5⟩ := p
  simp only [HelloResponse.WF] at h
  obtain ⟨h1, h2, h3, h4, h5, h6, h7, h8, h9, h10, h11, h12⟩ := h
  subst h2
  refine ⟨?_, by simp [HelloResponse.encode, PacketHeader.encode, le32]⟩
  simp [HelloResponse.decode, HelloResponse.encode, PacketHeader.encode,
    le32, rd32At, rd32]
  omega

lemma resetRequest_roundtrip (p : ResetRequest) (h : p.WF) :
    ResetRequest.decode p.encode = some p ∧ p.encode.length = 8 := by
  obtain ⟨⟨mt, len⟩⟩ := p
  simp only [ResetRequest.WF] at h
  obtain ⟨h1, h2⟩ := h
  subst h2
  refine ⟨?_, by simp [ResetRequest.encode, PacketHeader.encode, le32]⟩
  simp [ResetRequest.decode, ResetRequest.encode, PacketHeader.encode,
    le32, rd32At, rd32]
  omega

lemma doneRequest_roundtrip (p : DoneRequest) (h : p.WF) :
    DoneRequest.decode p.encode = some p ∧ p.encode.length = 8 := by
  obtain ⟨⟨mt, len⟩⟩ := p
  simp only [DoneRequest.WF] at h
  obtain ⟨h1, h2⟩ := h
  subst h2
  refine ⟨?_, by simp [DoneRequest.encode, PacketHeader.encode, le32]⟩
  simp [DoneRequest.decode, DoneRequest.encode, PacketHeader.encode,
    le32, rd32At, rd32]
  omega

lemma readRequest32_roundtrip (p : ReadRequest32) (h : p.WF) :
    ReadRequest32.decode p.encode = some p ∧ p.encode.length = 20 := by
  obtain ⟨⟨mt, len⟩, img, off, lng⟩ := p
  simp only [ReadRequest32.WF] at h
  obtain ⟨h1, h2, h3, h4, h5⟩ := h
  subst h2
  refine ⟨?_, by simp [ReadRequest32.encode, PacketHeader.encode, le32]⟩
  simp [ReadRequest32.decode, ReadRequest32.encode, PacketHeader.encode,
    le32, rd32At, rd32]
  omega

lemma readRequest64_roundtrip (p : ReadRequest64) (h : p.WF) :
    ReadRequest64.decode p.encode = some p ∧ p.encode.length = 32 := by
  obtain ⟨⟨mt, len⟩, img, off, lng⟩ := p
  simp only [ReadRequest64.WF] at h
  obtain ⟨h1, h2, h3, h4, h5⟩ := h
  subst h2
  have hlen : (ReadRequest64.encode ⟨⟨mt, 32⟩, img, off, lng⟩).length = 32 := by
    simp [ReadRequest64.encode, PacketHeader.encode, le32, le64]
  refine ⟨?_, hlen⟩
  have hassoc : ReadRequest64.encode ⟨⟨mt, 32⟩, img, off, lng⟩
      = le32 mt ++ (le32 32 ++ (le64 img ++ (le64 off ++ le64 lng))) := by
    simp [ReadRequest64.encode, PacketHeader.encode]
  have e0 : rd32At (ReadRequest64.encode ⟨⟨mt, 32⟩, img, off, lng⟩) 0 = mt := by
    rw [rd32At, List.drop_zero, hassoc, rd32_le32_append _ _ h1]
  have e4 : rd32At (ReadRequest64.encode ⟨⟨mt, 32⟩, img, off, lng⟩) 4 = 32 := by
    rw [rd32At, hassoc]
    show rd32 (le32 32 ++ (le64 img ++ (le64 off ++ le64 lng))) = 32
    rw [rd32_le32_append _ _ (by omega)]
  have e8 : rd64At (ReadRequest64.encode ⟨⟨mt, 32⟩, img, off, lng⟩) 8 = img := by
    rw [rd64At, hassoc]
    show rd64 (le64 img ++ (le64 off ++ le64 lng)) = img
    rw [rd64_le64_append _ _ h3]
  have e16 : rd64At (ReadRequest64.encode ⟨⟨mt, 32⟩, img, off, lng⟩) 16 = off := by
    rw [rd64At, hassoc]
    show rd64 (le64 off ++ le64 lng) = off
    rw [rd64_le64_append _ _ h4]
  have e24 : rd64At (ReadRequest64.encode ⟨⟨mt, 32⟩, img, off, lng⟩) 24 = lng := by
    rw [rd64At, hassoc]
    show rd64 (le64 lng) = lng
    rw [rd64_le64 _ h5]
  rw [ReadRequest64.decode, if_pos (by rw [hlen]), e0, e4, e8, e16, e24]

lemma endOfTransfer_roundtrip (p : EndOfTransfer) (h : p.WF) :
    EndOfTransfer.decode p.encode = some p ∧ p.encode.length = 16 := by
  obtain ⟨⟨mt, len⟩, img, s⟩ := p
  simp only [EndOfTransfer.WF] at h
  obtain ⟨h1, h2, h3, h4⟩ := h
  subst h2
  refine ⟨?_, by simp [EndOfTransfer.encode, PacketHeader.encode, le32]⟩
  simp [EndOfTransfer.decode, EndOfTransfer.encode, PacketHeader.encode,
    le32, rd32At, rd32]
  omega

lemma doneResponse_roundtrip (p : DoneResponse) (h : p.WF) :
    DoneResponse.decode p.encode = some p ∧ p.encode.length = 12 := by
  obtain ⟨⟨mt, len⟩, s⟩ := p
  simp only [DoneResponse.WF] at h
  obtain ⟨h1, h2, h3⟩ := h
  subst h2
  refine ⟨?_, by simp [DoneResponse.encode, PacketHeader.encode, le32]⟩
  simp [DoneResponse.decode, DoneResponse.encode, PacketHeader.encode,
    le32, rd32At, rd32]
  omega

lemma exec_packet_roundtrip (p : Exec) (h : p.WF) :
    Exec.decode p.encode = some p ∧ p.encode.length = 12 := by
  obtain ⟨⟨mt, len⟩, c⟩ := p
  simp only [Exec.WF] at h
  obtain ⟨h1, h2, h3⟩ := h
  subst h2
  refine ⟨?_, by simp [Exec.encode, PacketHeader.encode, le32]⟩
  simp [Exec.decode, Exec.encode, PacketHeader.encode, le32, rd32At, rd32]
  omega

lemma memoryRead32_roundtrip (p : MemoryRead32) (h : p.WF) :
    MemoryRead32.decode p.encode = some p ∧ p.encode.length = 16 := by
  obtain ⟨⟨mt, len⟩, a, s⟩ := p
  simp only [MemoryRead32.WF] at h
  obtain ⟨h1, h2, h3, h4⟩ := h
  subst h2
  refine ⟨?_, by simp [MemoryRead32.encode, PacketHeader.encode, le32]⟩
  simp [MemoryRead32.decode, MemoryRead32.encode, PacketHeader.encode,
    le32, rd32At, rd32]
  omega

lemma hardwareId_roundtrip (p : HardwareId) (h : p.WF) :
    HardwareId.decode p.encode = some p ∧ p.encode.length = 8 := by
  obtain ⟨m, o, i⟩ := p
  simp only [HardwareId.WF] at h
  obtain ⟨h1, h2, h3⟩ := h
  refine ⟨?_, by simp [HardwareId.encode, le16, le32]⟩
  simp [HardwareId.decode, HardwareId.encode, le16, le32,
    rd16At, rd16, rd32At, rd32]
  omega

lemma serialNo_roundtrip (p : SerialNo) (h : p.WF) :
    SerialNo.decode p.encode = some p ∧ p.encode.length = 8 := by
  obtain ⟨s⟩ := p
  simp only [SerialNo.WF] at h
  obtain ⟨hl, _⟩ := h
  refine ⟨?_, by simp [SerialNo.encode, hl]⟩
  rw [SerialNo.decode, SerialNo.encode]
  rw [if_pos (le_of_eq hl.symm)]
  rw [List.take_of_length_le (le_of_eq hl)]

lemma oemPkHash_roundtrip (p : OemPkHash) (h : p.WF) :
    OemPkHash.decode p.encode = some p ∧ p.encode.length = 96 := by
  obtain ⟨a, b, c⟩ := p
  simp only [OemPkHash.WF] at h
  obtain ⟨ha, hb, hc, _, _, _⟩ := h
  have hlen : (OemPkHash.encode ⟨a, b, c⟩).length = 96 := by
    simp [OemPkHash.encode, ha, hb, hc]
  refine ⟨?_, hlen⟩
  have hab : (a ++ b).length = 64 := by simp [ha, hb]
  have t1 : (OemPkHash.encode ⟨a, b, c⟩).take 32 = a := by
    rw [OemPkHash.encode]
    show (a ++ b ++ c).take 32 = a
    rw [List.append_assoc, List.take_left' ha]
  have t2 : ((OemPkHash.encode ⟨a, b, c⟩).drop 32).take 32 = b := by
    rw [OemPkHash.encode]
    show ((a ++ b ++ c).drop 32).take 32 = b
    rw [List.append_assoc, List.drop_left' ha, List.take_left' hb]
  have t3 : ((OemPkHash.encode ⟨a, b, c⟩).drop 64).take 32 = c := by
    rw [OemPkHash.encode]
    show ((a ++ b ++ c).drop 64).take 32 = c
    rw [List.drop_left' hab, List.take_of_length_le (le_of_eq hc)]
  rw [OemPkHash.decode, if_pos (by rw [hlen]), t1, t2, t3]

/- ----- Transport and decode helper lemmas ----- -/

lemma usb_read_n_length (size : Nat) (o : TransferOutcome) :
    (usb_read_n size o).length = size := by
  cases o with
  | ok data => simp [usb_read_n]
  | ioError s => simp [usb_read_n]
  | timeout => simp [usb_read_n]

lemma usb_read_length (o : TransferOutcome) :
    (usb_read o).length = 1024 := by
  rw [usb_read]
  exact usb_read_n_length TRANSFER_SIZE o

lemma packetHeader_decode_of_length (b : List Nat) (h : 8 ≤ b.length) :
    PacketHeader.decode b = some ⟨rd32At b 0, rd32At b 4⟩ := by
  simp [PacketHeader.decode, h]

lemma endOfTransfer_decode_of_length (b : List Nat) (h : 16 ≤ b.length) :
    EndOfTransfer.decode b
      = some ⟨⟨rd32At b 0, rd32At b 4⟩, rd32At b 8, rd32At b 12⟩ := by
  simp [EndOfTransfer.decode, h]

lemma helloRequest_decode_of_length (b : List Nat) (h : 24 ≤ b.length) :
    HelloRequest.decode b
      = some ⟨⟨rd32At b 0, rd32At b 4⟩, rd32At b 8, rd32At b 12,
          rd32At b 16, rd32At b 20⟩ := by
  simp [HelloRequest.decode, h]

lemma serialNo_decode_of_length (b : List Nat) (h : 8 ≤ b.length) :
    SerialNo.decode b = some ⟨b.take 8⟩ := by
  simp [SerialNo.decode, h]

lemma hardwareId_decode_of_length (b : List Nat) (h : 8 ≤ b.length) :
    HardwareId.decode b = some ⟨rd16At b 0, rd16At b 2, rd32At b 4⟩ := by
  simp [HardwareId.decode, h]

lemma oemPkHash_decode_of_length (b : List Nat) (h : 96 ≤ b.length) :
    OemPkHash.decode b
      = some ⟨b.take 32, (b.drop 32).take 32, (b.drop 64).take 32⟩ := by
  simp [OemPkHash.decode, h]

lemma rd32_take (l : List Nat) (m : Nat) (h : 4 ≤ m) :
    rd32 (l.take m) = rd32 l := by
  have hg : ∀ i, i < m → (l.take m).getD i 0 = l.getD i 0 := by
    intro i hi
    rw [List.getD_eq_getElem?_getD, List.getD_eq_getElem?_getD,
      List.getElem?_take, if_pos hi]
  rw [rd32, rd32, hg 0 (by omega), hg 1 (by omega), hg 2 (by omega),
    hg 3 (by omega)]

lemma rd32At_take_zero (l : List Nat) (m : Nat) (h : 4 ≤ m) :
    rd32At (l.take m) 0 = rd32At l 0 := by
  simp only [rd32At, List.drop_zero]
  exact rd32_take l m h

lemma rd32At_take (l : List Nat) (m off : Nat) (h : off + 4 ≤ m) :
    rd32At (l.take m) off = rd32At l off := by
  rw [rd32At, rd32At, List.drop_take]
  exact rd32_take _ _ (by omega)

/- ----- Characterization lemmas for the engine functions ----- -/

/-- The message type of the reply buffer a protocol function reads. -/
def replyType (o : TransferOutcome) : Nat := rd32At (usb_read o) 0

/-- The EndOfTransfer status field of the reply buffer. -/
def replyStatus (o : TransferOutcome) : Nat := rd32At (usb_read o) 12

lemma exec_eot (errStr : Nat → String) (c : Command) (o : TransferOutcome)
    (hmt : replyType o = SAHARA_END_OF_TRANSFER) :
    exec errStr c o
      = ⟨[execRequestPacket c],
          .err (.commandFailed (replyStatus o) (errStr (replyStatus o)))⟩ := by
  have h8 : (8:Nat) ≤ (usb_read o).length := by rw [usb_read_length]; omega
  have h16 : (16:Nat) ≤ (usb_read o).length := by rw [usb_read_length]; omega
  rw [replyType] at hmt
  simp [exec, packetHeader_decode_of_length (usb_read o) h8,
    endOfTransfer_decode_of_length (usb_read o) h16, hmt, replyStatus]

lemma exec_resp (errStr : Nat → String) (c : Command) (o : TransferOutcome)
    (hmt : replyType o = SAHARA_EXECUTE_RESPONSE) :
    exec errStr c o = ⟨[execRequestPacket c, execDataPacket c], .ok ()⟩ := by
  have h8 : (8:Nat) ≤ (usb_read o).length := by rw [usb_read_length]; omega
  rw [replyType] at hmt
  simp [exec, packetHeader_decode_of_length (usb_read o) h8, hmt,
    SAHARA_EXECUTE_RESPONSE, SAHARA_END_OF_TRANSFER]

lemma exec_other (errStr : Nat → String) (c : Command) (o : TransferOutcome)
    (h4 : replyType o ≠ SAHARA_END_OF_TRANSFER)
    (h14 : replyType o ≠ SAHARA_EXECUTE_RESPONSE) :
    exec errStr c o
      = ⟨[execRequestPacket c], .err (.unexpectedMessage (replyType o))⟩ := by
  have h8 : (8:Nat) ≤ (usb_read o).length := by rw [usb_read_length]; omega
  rw [replyType] at h4 h14 ⊢
  simp [exec, packetHeader_decode_of_length (usb_read o) h8, h4, h14]

/-- The HelloResponse packet `switch_mode` sends. -/
def switchModePacket (version : Nat) (mode : Mode) : List Nat :=
  HelloResponse.encode
    ⟨⟨SAHARA_HELLO_RESPONSE, HELLO_RESPONSE_SIZE⟩, version, 1, 0,
      mode.toNat, 0, 0, 0, 0, 0, 0⟩

lemma switch_mode_eq (errStr : Nat → String) (version : Nat) (mode : Mode)
    (o : TransferOutcome) :
    switch_mode errStr version mode o
      = ⟨[switchModePacket version mode],
          if replyType o = SAHARA_END_OF_TRANSFER then
            some (replyStatus o, errStr (replyStatus o))
          else none,
          if replyType o ≠ SAHARA_READY then some (replyType o) else none,
          .ok ()⟩ := by
  have h8 : (8:Nat) ≤ (usb_read o).length := by rw [usb_read_length]; omega
  have h16 : (16:Nat) ≤ (usb_read o).length := by rw [usb_read_length]; omega
  have hd := packetHeader_decode_of_length (usb_read o) h8
  have he := endOfTransfer_decode_of_length (usb_read o) h16
  simp only [replyType, replyStatus, SAHARA_END_OF_TRANSFER, SAHARA_READY]
  by_cases h4 : rd32At (usb_read o) 0 = 4
  · have hne : ¬ rd32At (usb_read o) 0 = 11 := by omega
    simp [switch_mode, hd, he, h4, hne, switchModePacket,
      SAHARA_END_OF_TRANSFER, SAHARA_READY]
  · by_cases hb : rd32At (usb_read o) 0 = 11
    · simp [switch_mode, hd, he, h4, hb, switchModePacket,
        SAHARA_END_OF_TRANSFER, SAHARA_READY]
    · simp [switch_mode, hd, he, h4, hb, switchModePacket,
        SAHARA_END_OF_TRANSFER, SAHARA_READY]

/-- The message type of the 16-byte `read_mem` data reply. -/
def replyType16 (o : TransferOutcome) : Nat := rd32At (usb_read_n 16 o) 0

lemma read_mem_eq (errStr : Nat → String) (version address : Nat)
    (oSwitch oRead : TransferOutcome) :
    read_mem errStr version address oSwitch oRead
      = ⟨switch_mode errStr version Mode.MemoryDebug oSwitch,
          (switch_mode errStr version Mode.MemoryDebug oSwitch).writes
            ++ [MemoryRead32.encode
                  ⟨⟨SAHARA_MEMORY_READ, MEMORY_READ_SIZE⟩, address, 16⟩],
          16,
          if replyType16 oRead = SAHARA_END_OF_TRANSFER then
            .panic (let status := rd32At (usb_read_n 16 oRead) 12
              let msg := errStr status
              s!"Reading memory failed with status {status}: {msg}")
          else .ok (usb_read_n 16 oRead)⟩ := by
  have h8 : (8:Nat) ≤ (usb_read_n 16 oRead).length := by
    simp [usb_read_n_length]
  have h16 : (16:Nat) ≤ (usb_read_n 16 oRead).length := by
    simp [usb_read_n_length]
  by_cases h4 : replyType16 oRead = SAHARA_END_OF_TRANSFER
  · rw [replyType16] at h4
    simp [read_mem, packetHeader_decode_of_length _ h8,
      endOfTransfer_decode_of_length _ h16, h4, replyType16]
  · rw [replyType16] at h4
    simp [read_mem, packetHeader_decode_of_length _ h8, h4, replyType16]

lemma rd32At_usb_read_take (o : TransferOutcome) (off : Nat)
    (h : off + 4 ≤ 32) :
    rd32At ((usb_read o).take 32) off = rd32At (usb_read o) off :=
  rd32At_take _ _ _ h

lemma reset_eq (errStr : Nat → String) (o : TransferOutcome) :
    reset errStr o
      = ⟨[ResetRequest.encode ⟨⟨SAHARA_RESET_REQUEST, RESET_REQUEST_SIZE⟩⟩],
          if replyType o = SAHARA_END_OF_TRANSFER then
            .panic (let status := replyStatus o
              let msg := errStr status
              s!"Reset failed with status {status}: {msg}")
          else .ok ()⟩ := by
  have h8 : (8:Nat) ≤ ((usb_read o).take 32).length := by
    rw [List.length_take, usb_read_length]; omega
  have h16 : (16:Nat) ≤ ((usb_read o).take 32).length := by
    rw [List.length_take, usb_read_length]; omega
  have e0 := rd32At_usb_read_take o 0 (by omega)
  have e12 := rd32At_usb_read_take o 12 (by omega)
  by_cases h4 : replyType o = SAHARA_END_OF_TRANSFER
  · rw [replyType] at h4
    simp [reset, packetHeader_decode_of_length _ h8,
      endOfTransfer_decode_of_length _ h16, e0, e12, h4,
      replyType, replyStatus]
  · rw [replyType] at h4
    simp [reset, packetHeader_decode_of_length _ h8, e0, h4, replyType]

lemma end_eq (errStr : Nat → String) (version : Nat)
    (oSwitch oDone : TransferOutcome) :
    end' errStr version oSwitch oDone
      = ⟨switch_mode errStr version Mode.ImageTxPending oSwitch,
          (switch_mode errStr version Mode.ImageTxPending oSwitch).writes
            ++ [DoneRequest.encode ⟨⟨SAHARA_DONE_REQUEST, DONE_REQUEST_SIZE⟩⟩],
          if replyType oDone = SAHARA_END_OF_TRANSFER then
            .panic (let status := replyStatus oDone
              let msg := errStr status
              s!"Done failed with status {status}: {msg}")
          else .ok ()⟩ := by
  have h8 : (8:Nat) ≤ ((usb_read oDone).take 32).length := by
    rw [List.length_take, usb_read_length]; omega
  have h16 : (16:Nat) ≤ ((usb_read oDone).take 32).length := by
    rw [List.length_take, usb_read_length]; omega
  have e0 := rd32At_usb_read_take oDone 0 (by omega)
  have e12 := rd32At_usb_read_take oDone 12 (by omega)
  by_cases h4 : replyType oDone = SAHARA_END_OF_TRANSFER
  · rw [replyType] at h4
    simp [end', packetHeader_decode_of_length _ h8,
      endOfTransfer_decode_of_length _ h16, e0, e12, h4,
      replyType, replyStatus]
  · rw [replyType] at h4
    simp [end', packetHeader_decode_of_length _ h8, e0, h4, replyType]

lemma hello_eq (o : TransferOutcome) :
    hello o
      = if rd32At (usb_read o) 0 = SAHARA_HELLO_REQUEST then
          .ok (rd32At (usb_read o) 20)
        else .panic "assertion failed: mt == SAHARA_HELLO_REQUEST" := by
  have h24 : (24:Nat) ≤ (usb_read o).length := by rw [usb_read_length]; omega
  by_cases h1 : rd32At (usb_read o) 0 = SAHARA_HELLO_REQUEST
  · simp [hello, helloRequest_decode_of_length _ h24, h1]
  · simp [hello, helloRequest_decode_of_length _ h24, h1]

/- ----- Claim-loop lemmas ----- -/

lemma claim_interface_all_fail (attempt : Nat → Bool) (extra : Nat → Nat)
    (hall : ∀ k, attempt k = false) :
    ∀ n k t, CLAIM_INTERFACE_TIMEOUT_US + 1 - t ≤ n →
      claim_interface attempt extra k t
        = .error "failure claiming USB interface" := by
  intro n
  induction n with
  | zero =>
    intro k t ht
    unfold claim_interface
    rw [dif_neg]
    simp only [CLAIM_INTERFACE_TIMEOUT_US] at ht ⊢
    omega
  | succ n ih =>
    intro k t ht
    unfold claim_interface
    by_cases h : t ≤ CLAIM_INTERFACE_TIMEOUT_US
    · rw [dif_pos h]
      simp only [hall k, Bool.false_eq_true, if_false]
      refine ih (k + 1) _ ?_
      simp only [CLAIM_INTERFACE_TIMEOUT_US, CLAIM_INTERFACE_PERIOD_US] at *
      omega
    · rw [dif_neg h]

lemma claimAttemptCount_bound (attempt : Nat → Bool) (extra : Nat → Nat)
    (hall : ∀ k, attempt k = false) :
    ∀ n k t, CLAIM_INTERFACE_TIMEOUT_US + 1 - t ≤ n →
      claimAttemptCount attempt extra k t ≤ 5001 - t / 200 := by
  intro n
  induction n with
  | zero =>
    intro k t ht
    unfold claimAttemptCount
    rw [dif_neg]
    · exact Nat.zero_le _
    · simp only [CLAIM_INTERFACE_TIMEOUT_US] at ht ⊢
      omega
  | succ n ih =>
    intro k t ht
    unfold claimAttemptCount
    by_cases h : t ≤ CLAIM_INTERFACE_TIMEOUT_US
    · rw [dif_pos h]
      simp only [hall k, Bool.false_eq_true, if_false]
      have hrec := ih (k + 1) (t + (CLAIM_INTERFACE_PERIOD_US + extra k))
        (by simp only [CLAIM_INTERFACE_TIMEOUT_US,
              CLAIM_INTERFACE_PERIOD_US] at *; omega)
      simp only [CLAIM_INTERFACE_TIMEOUT_US, CLAIM_INTERFACE_PERIOD_US]
        at h hrec ⊢
      have hq : t / 200 ≤ 5000 := by
        have h5 : t / 200 ≤ 1000000 / 200 := Nat.div_le_div_right h
        simpa using h5
      have hx : t / 200 + 1 ≤ (t + (200 + extra k)) / 200 := by
        have h1 : (t + 200) / 200 = t / 200 + 1 :=
          Nat.add_div_right t (by norm_num)
        have h2 : (t + 200) / 200 ≤ (t + (200 + extra k)) / 200 :=
          Nat.div_le_div_right (by omega)
        omega
      omega
    · rw [dif_neg h]
      exact Nat.zero_le _

/- ----- Claim theorems ----- -/

/-- C1: for every command and every phase-one reply, `exec` sends the
EXECUTE_DATA packet if and only if the phase-one reply's message type is
EXECUTE_RESPONSE (the write list has a second element exactly then); an
END_OF_TRANSFER reply returns the command-failed error with the decoded
status, any other non-EXECUTE_RESPONSE reply returns the
unexpected-message error, and in both error cases exactly one write
(the EXECUTE_REQUEST packet) has been performed. -/
theorem exec_two_phase_gate (errStr : Nat → String) (c : Command)
    (o : TransferOutcome) :
    ((exec errStr c o).writes.length = 2
        ↔ replyType o = SAHARA_EXECUTE_RESPONSE)
    ∧ (replyType o = SAHARA_EXECUTE_RESPONSE →
        exec errStr c o
          = ⟨[execRequestPacket c, execDataPacket c], .ok ()⟩)
    ∧ (replyType o = SAHARA_END_OF_TRANSFER →
        exec errStr c o
          = ⟨[execRequestPacket c],
              .err (.commandFailed (replyStatus o)
                (errStr (replyStatus o)))⟩)
    ∧ (replyType o ≠ SAHARA_END_OF_TRANSFER →
        replyType o ≠ SAHARA_EXECUTE_RESPONSE →
        exec errStr c o
          = ⟨[execRequestPacket c],
              .err (.unexpectedMessage (replyType o))⟩) := by
  by_cases h4 : replyType o = SAHARA_END_OF_TRANSFER
  · have hx := exec_eot errStr c o h4
    have hni : replyType o ≠ SAHARA_EXECUTE_RESPONSE := by
      simp only [SAHARA_END_OF_TRANSFER, SAHARA_EXECUTE_RESPONSE] at *
      omega
    refine ⟨?_, fun h14 => absurd h14 hni, fun _ => hx,
      fun hne _ => absurd h4 hne⟩
    rw [hx]
    simp [hni]
  · by_cases h14 : replyType o = SAHARA_EXECUTE_RESPONSE
    · have hx := exec_resp errStr c o h14
      refine ⟨?_, fun _ => hx, fun h => absurd h h4,
        fun _ hne => absurd h14 hne⟩
      rw [hx]
      simp [h14]
    · have hx := exec_other errStr c o h4 h14
      refine ⟨?_, fun h => absurd h h14, fun h => absurd h h4,
        fun _ _ => hx⟩
      rw [hx]
      simp [h14]

/-- Witness for C1 at a concrete END_OF_TRANSFER reply with status 9. -/
theorem exec_two_phase_gate_witness :
    exec (fun _ => "failure") Command.GetSerialNum
        (.ok (le32 4 ++ le32 16 ++ le32 0 ++ le32 9))
      = ⟨[execRequestPacket Command.GetSerialNum],
          .err (.commandFailed 9 "failure")⟩ := by
  have h := (exec_two_phase_gate (fun _ => "failure") Command.GetSerialNum
      (.ok (le32 4 ++ le32 16 ++ le32 0 ++ le32 9))).2.2.1 (by decide)
  exact h.trans (by decide)

/-- C2 is false of the code: `hello` returns only the mode. Two first
packets that differ only in the device-reported version (5 versus 7)
produce identical `hello` results, so the return value cannot carry the
version; on a HELLO_REQUEST packet the result is just the mode (3). -/
theorem hello_drops_version_counterexample :
    hello (.ok (le32 1 ++ le32 48 ++ le32 5 ++ le32 1 ++ le32 1024
        ++ le32 3))
      = hello (.ok (le32 1 ++ le32 48 ++ le32 7 ++ le32 1 ++ le32 1024
        ++ le32 3))
    ∧ hello (.ok (le32 1 ++ le32 48 ++ le32 5 ++ le32 1 ++ le32 1024
        ++ le32 3)) = .ok 3 := by
  constructor
  · decide
  · decide

/-- C2 amended: `hello` rejects any first packet whose message type is
not HELLO_REQUEST (the `assert_eq!` fails, modelled as a panic, the
ProtocolViolation of the spec taxonomy), and for a HELLO_REQUEST packet
it returns only the device-reported mode (the u32 at offset 20); the
device-reported version is not returned. -/
theorem hello_mode_only (o : TransferOutcome) :
    (replyType o ≠ SAHARA_HELLO_REQUEST →
      hello o = .panic "assertion failed: mt == SAHARA_HELLO_REQUEST")
    ∧ (replyType o = SAHARA_HELLO_REQUEST →
      hello o = .ok (rd32At (usb_read o) 20)) := by
  constructor
  · intro h
    rw [replyType] at h
    simp [hello_eq, h]
  · intro h
    rw [replyType] at h
    simp [hello_eq, h]

/-- Witness for C2 amended at a concrete HELLO_REQUEST packet with
mode 3. -/
theorem hello_mode_only_witness :
    hello (.ok (le32 1 ++ le32 48 ++ le32 5 ++ le32 1 ++ le32 1024
        ++ le32 3)) = .ok 3 := by
  have h := (hello_mode_only (.ok (le32 1 ++ le32 48 ++ le32 5 ++ le32 1
      ++ le32 1024 ++ le32 3))).2 (by decide)
  exact h.trans (by decide)

/-- C3 is false of the code: on an EndOfTransfer reply with status 6,
`switch_mode` returns unit (result `.ok ()`), not a ModeSwitchFailed
error, and `read_mem` still sends its MemoryRead32 request (two writes)
after the failed mode switch. -/
theorem switch_mode_no_error_counterexample :
    (switch_mode (fun _ => "err6") 2 Mode.Command
        (.ok (le32 4 ++ le32 16 ++ le32 0 ++ le32 6))).result = .ok ()
    ∧ (read_mem (fun _ => "err6") 2 4096
        (.ok (le32 4 ++ le32 16 ++ le32 0 ++ le32 6))
        (.ok [])).writes.length = 2 := by
  constructor
  · decide
  · decide

/-- C3 amended: on an EndOfTransfer reply `switch_mode` only logs the
ModeSwitchFailed diagnostic (decoded status plus its mapped message); on
any non-READY reply it only prints the unexpected type; in every case it
returns unit, and callers proceed: `read_mem` sends its MemoryRead32
request regardless of the switch reply. -/
theorem switch_mode_logs_only (errStr : Nat → String) (version : Nat)
    (mode : Mode) (o : TransferOutcome) :
    (replyType o = SAHARA_END_OF_TRANSFER →
      (switch_mode errStr version mode o).errorLog
        = some (replyStatus o, errStr (replyStatus o)))
    ∧ (replyType o ≠ SAHARA_END_OF_TRANSFER →
      (switch_mode errStr version mode o).errorLog = none)
    ∧ (replyType o ≠ SAHARA_READY →
      (switch_mode errStr version mode o).failLog = some (replyType o))
    ∧ (replyType o = SAHARA_READY →
      (switch_mode errStr version mode o).failLog = none)
    ∧ (switch_mode errStr version mode o).result = .ok ()
    ∧ (∀ address oRead,
        (read_mem errStr version address o oRead).writes
          = (switch_mode errStr version Mode.MemoryDebug o).writes
            ++ [MemoryRead32.encode
                  ⟨⟨SAHARA_MEMORY_READ, MEMORY_READ_SIZE⟩, address, 16⟩]) := by
  refine ⟨fun h => ?_, fun h => ?_, fun h => ?_, fun h => ?_, ?_,
    fun address oRead => ?_⟩
  · simp [switch_mode_eq, h]
  · simp [switch_mode_eq, h]
  · simp [switch_mode_eq, h]
  · simp [switch_mode_eq, h]
  · simp [switch_mode_eq]
  · simp [read_mem_eq]

/-- Witness for C3 amended at an EndOfTransfer reply with status 6 and
its mapped message. -/
theorem switch_mode_logs_only_witness :
    (switch_mode (fun n => if n = 6 then "invalid command" else "") 2
        Mode.Command (.ok (le32 4 ++ le32 16 ++ le32 0 ++ le32 6))).errorLog
      = some (6, "invalid command") := by
  have h := (switch_mode_logs_only
      (fun n => if n = 6 then "invalid command" else "") 2 Mode.Command
      (.ok (le32 4 ++ le32 16 ++ le32 0 ++ le32 6))).1 (by decide)
  exact h.trans (by decide)

lemma connect_claim_of_error (attempt : Nat → Bool) (extra : Nat → Nat)
    (t0 : Nat)
    (h : claim_interface attempt extra 0 t0
      = .error "failure claiming USB interface") :
    connect_claim attempt extra t0
      = .panic
          "called unwrap on an Err value: failure claiming USB interface" := by
  unfold connect_claim
  rw [h]
  rfl

/-- C9 is false of the code: when every claim attempt fails, the
session does not return a ClaimInterfaceTimeout error — `connect`
unwraps the loop's `Err`, so its claim step panics (shown here from the
start of the retry budget, elapsed time 0). -/
theorem connect_claim_panics_counterexample :
    connect_claim (fun _ => false) (fun _ => 0) 0
      = .panic
          "called unwrap on an Err value: failure claiming USB interface" := by
  exact connect_claim_of_error _ _ _
    (claim_interface_all_fail (fun _ => false) (fun _ => 0)
      (fun _ => rfl) (CLAIM_INTERFACE_TIMEOUT_US + 1) 0 0 (by omega))

/-- C9 amended: when every claim attempt fails, the retry loop
terminates once the 1-second wall-clock deadline elapses (sleeping the
fixed 200-microsecond interval between attempts, so at most 5001
attempts — it never loops indefinitely) and returns the claim-failure
error exactly once; `connect` however unwraps that error, so the
session panics rather than returning a ClaimInterfaceTimeout error. -/
theorem claim_loop_bounded_connect_panics (attempt : Nat → Bool)
    (extra : Nat → Nat) (t0 : Nat) (hall : ∀ k, attempt k = false) :
    claim_interface attempt extra 0 t0
      = .error "failure claiming USB interface"
    ∧ claimAttemptCount attempt extra 0 t0 ≤ 5001
    ∧ connect_claim attempt extra t0
        = .panic
            "called unwrap on an Err value: failure claiming USB interface" := by
  have herr := claim_interface_all_fail attempt extra hall
    (CLAIM_INTERFACE_TIMEOUT_US + 1 - t0) 0 t0 (le_refl _)
  refine ⟨herr, ?_, ?_⟩
  · exact le_trans (claimAttemptCount_bound attempt extra hall
      (CLAIM_INTERFACE_TIMEOUT_US + 1 - t0) 0 t0 (le_refl _))
      (Nat.sub_le _ _)
  · exact connect_claim_of_error attempt extra t0 herr

/-- Witness for C9 amended: an always-failing attempt sequence starting
at elapsed time 0, so the loop runs through its full retry budget. -/
theorem claim_loop_bounded_connect_panics_witness :
    claim_interface (fun _ => false) (fun _ => 0) 0 0
      = .error "failure claiming USB interface"
    ∧ claimAttemptCount (fun _ => false) (fun _ => 0) 0 0 ≤ 5001 := by
  have h := claim_loop_bounded_connect_panics (fun _ => false)
    (fun _ => 0) 0 (fun _ => rfl)
  exact ⟨h.1, h.2.1⟩

/-- C10: for every address, `read_mem` requests exactly 16 bytes from
the transport and sends a MemoryRead32 packet whose size field is the
fixed constant 0x10; neither depends on the address or any caller
input. -/
theorem read_mem_fixed_16 (errStr : Nat → String) (version address : Nat)
    (oSwitch oRead : TransferOutcome) :
    (read_mem errStr version address oSwitch oRead).readSize = 16
    ∧ (read_mem errStr version address oSwitch oRead).writes
      = (switch_mode errStr version Mode.MemoryDebug oSwitch).writes
        ++ [MemoryRead32.encode
              ⟨⟨SAHARA_MEMORY_READ, MEMORY_READ_SIZE⟩, address, 16⟩] := by
  rw [read_mem_eq]
  exact ⟨rfl, rfl⟩

/-- C4: `info` with version 3 or newer issues exactly one exec call
(GetSerialNum), whatever the device replies; with version below 3 and
successful phase-one replies it issues exactly three, in the order
GetSerialNum, GetHardwareId, GetOemPkHash; the version-gated commands
are never issued when the gate fails. -/
theorem info_version_gating (errStr : Nat → String) (version : Nat)
    (os : Nat → TransferOutcome) :
    (3 ≤ version →
      (info errStr version os).execCmds = [Command.GetSerialNum])
    ∧ (version < 3 →
        replyType (os 0) = SAHARA_EXECUTE_RESPONSE →
        replyType (os 2) = SAHARA_EXECUTE_RESPONSE →
        replyType (os 4) = SAHARA_EXECUTE_RESPONSE →
        (info errStr version os).execCmds
          = [Command.GetSerialNum, Command.GetHardwareId,
              Command.GetOemPkHash])
    ∧ (3 ≤ version →
        Command.GetHardwareId ∉ (info errStr version os).execCmds
        ∧ Command.GetOemPkHash ∉ (info errStr version os).execCmds) := by
  have main : 3 ≤ version →
      (info errStr version os).execCmds = [Command.GetSerialNum] := by
    intro h3
    have hnlt : ¬ version < 3 := by omega
    cases hr : (exec errStr Command.GetSerialNum (os 0)).result with
    | panic m => simp [info, hr]
    | err e => simp [info, hr]
    | ok a =>
      have h81 : (8:Nat) ≤ (usb_read (os 1)).length := by
        rw [usb_read_length]; omega
      simp [info, hr, serialNo_decode_of_length _ h81, hnlt]
  refine ⟨main, ?_, fun h3 => by rw [main h3]; refine ⟨by simp, by simp⟩⟩
  intro hlt h0 h2 h4
  have hx0 := exec_resp errStr Command.GetSerialNum (os 0) h0
  have hx2 := exec_resp errStr Command.GetHardwareId (os 2) h2
  have hx4 := exec_resp errStr Command.GetOemPkHash (os 4) h4
  have h81 : (8:Nat) ≤ (usb_read (os 1)).length := by
    rw [usb_read_length]; omega
  have h83 : (8:Nat) ≤ (usb_read (os 3)).length := by
    rw [usb_read_length]; omega
  have h965 : (96:Nat) ≤ (usb_read (os 5)).length := by
    rw [usb_read_length]; omega
  simp [info, hx0, hx2, hx4, serialNo_decode_of_length _ h81,
    hardwareId_decode_of_length _ h83, oemPkHash_decode_of_length _ h965,
    hlt]

/-- Witness for C4 with EXECUTE_RESPONSE replies, at versions 2 and 3. -/
theorem info_version_gating_witness :
    (info (fun _ => "") 2
        (fun _ => .ok (le32 14 ++ le32 12 ++ le32 0))).execCmds
      = [Command.GetSerialNum, Command.GetHardwareId, Command.GetOemPkHash]
    ∧ (info (fun _ => "") 3
        (fun _ => .ok (le32 14 ++ le32 12 ++ le32 0))).execCmds
      = [Command.GetSerialNum] := by
  constructor
  · exact (info_version_gating (fun _ => "") 2
      (fun _ => .ok (le32 14 ++ le32 12 ++ le32 0))).2.1
      (by decide) (by decide) (by decide) (by decide)
  · exact (info_version_gating (fun _ => "") 3
      (fun _ => .ok (le32 14 ++ le32 12 ++ le32 0))).1 (by decide)

/-- C5 is false of the code: on a device-reported failure
(EndOfTransfer, status 6) `reset` panics — aborts — rather than
returning a recoverable error result, and `info` panics when its first
exec fails (it unwraps) rather than skipping and continuing. -/
theorem device_failure_aborts_counterexample :
    (reset (fun _ => "")
        (.ok (le32 4 ++ le32 16 ++ le32 0 ++ le32 6))).result.isPanic
      = true
    ∧ (reset (fun _ => "")
        (.ok (le32 4 ++ le32 16 ++ le32 0 ++ le32 6))).result.isErr
      = false
    ∧ (info (fun _ => "") 2
        (fun _ => .ok (le32 4 ++ le32 16 ++ le32 0
          ++ le32 6))).result.isPanic = true := by
  refine ⟨by decide, by decide, by decide⟩

/-- C5 amended: on a device-reported failure, `reset`, `end` and
`read_mem` panic (process abort); only `exec` itself returns a
recoverable error, and `info` unwraps such errors into a panic rather
than skipping the failed command. -/
theorem device_failure_panics (errStr : Nat → String)
    (o o16 : TransferOutcome)
    (h4 : replyType o = SAHARA_END_OF_TRANSFER)
    (h416 : replyType16 o16 = SAHARA_END_OF_TRANSFER) :
    (reset errStr o).result.isPanic = true
    ∧ (∀ version oS, (end' errStr version oS o).result.isPanic = true)
    ∧ (∀ version address oS,
        (read_mem errStr version address oS o16).result.isPanic = true)
    ∧ (∀ c, (exec errStr c o).result.isErr = true)
    ∧ (∀ version os, os 0 = o →
        (info errStr version os).result.isPanic = true) := by
  refine ⟨?_, fun version oS => ?_, fun version address oS => ?_,
    fun c => ?_, fun version os hos => ?_⟩
  · simp [reset_eq, h4, Outcome.isPanic]
  · simp [end_eq, h4, Outcome.isPanic]
  · simp [read_mem_eq, h416, Outcome.isPanic]
  · simp [exec_eot errStr c o h4, Outcome.isErr]
  · have hx := exec_eot errStr Command.GetSerialNum (os 0) (hos ▸ h4)
    simp [info, hx, Outcome.isPanic]

/-- Witness for C5 amended at an EndOfTransfer reply with status 6. -/
theorem device_failure_panics_witness :
    (reset (fun _ => "e")
        (.ok (le32 4 ++ le32 16 ++ le32 0 ++ le32 6))).result.isPanic
      = true := by
  exact (device_failure_panics (fun _ => "e")
    (.ok (le32 4 ++ le32 16 ++ le32 0 ++ le32 6))
    (.ok (le32 4 ++ le32 16 ++ le32 0 ++ le32 6))
    (by decide) (by decide)).1

/-- C6 is false of the code: a timed-out read and an I/O-failed read
return exactly the same value as a successful empty read — the
zero-filled buffer — even though the inner result distinguishes them;
no Timeout or TransportError reaches the caller. -/
theorem transport_swallow_counterexample :
    usb_read_n 16 .timeout = usb_read_n 16 (.ok [])
    ∧ usb_read_n 16 (.ioError 5) = usb_read_n 16 (.ok [])
    ∧ usbReadInner .timeout = .error .timedOut
    ∧ usbReadInner (.ioError 5) = .error (.other 5)
    ∧ usbReadInner (.ok []) = .ok 0 := by
  refine ⟨by decide, by decide, rfl, rfl, rfl⟩

/-- C6 amended: the inner race does compute a Timeout error on timer
expiry and a TransportError wrapping the status on I/O failure, but
`usb_read_n` and `usb_send` bind that result to `_` and discard it:
`usb_read_n` returns the zero buffer and `usb_send` returns unit in
both failure cases, surfacing nothing to the caller. -/
theorem transport_failures_discarded (size status : Nat) :
    usbReadInner .timeout = .error .timedOut
    ∧ usbReadInner (.ioError status) = .error (.other status)
    ∧ usbSendInner .timeout = .error .timedOut
    ∧ usbSendInner (.ioError status) = .error (.other status)
    ∧ usb_read_n size .timeout = List.replicate size 0
    ∧ usb_read_n size (.ioError status) = List.replicate size 0
    ∧ usb_send .timeout = ()
    ∧ usb_send (.ioError status) = () := by
  exact ⟨rfl, rfl, rfl, rfl, rfl, rfl, rfl, rfl⟩

/-- C7: the code accepts a short read. With a READY mode-switch reply
and a device data reply of only 8 bytes (fewer than the 16 requested),
`read_mem` returns the zero-padded buffer as a successful result
instead of flagging an incomplete read. -/
theorem read_mem_accepts_short_read :
    (read_mem (fun _ => "") 2 4096 (.ok (le32 11 ++ le32 48))
        (.ok [222, 173, 190, 239, 0, 0, 17, 34])).result
      = .ok ([222, 173, 190, 239, 0, 0, 17, 34]
          ++ List.replicate 8 0) := by
  decide

/-- C8: for every packet type in the catalog and every well-formed
field assignment (fields within their machine-integer ranges, byte
arrays of the right lengths, and — for packets that carry a header —
the length field at the type's valid value), decoding the encoded bytes
yields the original packet, the encoded byte length is the type's size
constant, and for header-bearing packets the header length field equals
that same per-type constant. -/
theorem codec_roundtrip :
    (∀ p : PacketHeader, p.WF →
      PacketHeader.decode p.encode = some p ∧ p.encode.length = 8)
    ∧ (∀ p : HelloRequest, p.WF →
      HelloRequest.decode p.encode = some p ∧ p.encode.length = 24
        ∧ p.header.length = 24)
    ∧ (∀ p : HelloResponse, p.WF →
      HelloResponse.decode p.encode = some p ∧ p.encode.length = 48
        ∧ p.header.length = 48)
    ∧ (∀ p : ResetRequest, p.WF →
      ResetRequest.decode p.encode = some p ∧ p.encode.length = 8
        ∧ p.header.length = 8)
    ∧ (∀ p : DoneRequest, p.WF →
      DoneRequest.decode p.encode = some p ∧ p.encode.length = 8
        ∧ p.header.length = 8)
    ∧ (∀ p : ReadRequest32, p.WF →
      ReadRequest32.decode p.encode = some p ∧ p.encode.length = 20
        ∧ p.header.length = 20)
    ∧ (∀ p : ReadRequest64, p.WF →
      ReadRequest64.decode p.encode = some p ∧ p.encode.length = 32
        ∧ p.header.length = 32)
    ∧ (∀ p : EndOfTransfer, p.WF →
      EndOfTransfer.decode p.encode = some p ∧ p.encode.length = 16
        ∧ p.header.length = 16)
    ∧ (∀ p : DoneResponse, p.WF →
      DoneResponse.decode p.encode = some p ∧ p.encode.length = 12
        ∧ p.header.length = 12)
    ∧ (∀ p : Exec, p.WF →
      Exec.decode p.encode = some p ∧ p.encode.length = 12
        ∧ p.header.length = 12)
    ∧ (∀ p : MemoryRead32, p.WF →
      MemoryRead32.decode p.encode = some p ∧ p.encode.length = 16
        ∧ p.header.length = 16)
    ∧ (∀ p : HardwareId, p.WF →
      HardwareId.decode p.encode = some p ∧ p.encode.length = 8)
    ∧ (∀ p : SerialNo, p.WF →
      SerialNo.decode p.encode = some p ∧ p.encode.length = 8)
    ∧ (∀ p : OemPkHash, p.WF →
      OemPkHash.decode p.encode = some p ∧ p.encode.length = 96) := by
  refine ⟨fun p h => packetHeader_roundtrip p h,
    fun p h => ⟨(helloRequest_roundtrip p h).1,
      (helloRequest_roundtrip p h).2, h.2.1⟩,
    fun p h => ⟨(helloResponse_roundtrip p h).1,
      (helloResponse_roundtrip p h).2, h.2.1⟩,
    fun p h => ⟨(resetRequest_roundtrip p h).1,
      (resetRequest_roundtrip p h).2, h.2⟩,
    fun p h => ⟨(doneRequest_roundtrip p h).1,
      (doneRequest_roundtrip p h).2, h.2⟩,
    fun p h => ⟨(readRequest32_roundtrip p h).1,
      (readRequest32_roundtrip p h).2, h.2.1⟩,
    fun p h => ⟨(readRequest64_roundtrip p h).1,
      (readRequest64_roundtrip p h).2, h.2.1⟩,
    fun p h => ⟨(endOfTransfer_roundtrip p h).1,
      (endOfTransfer_roundtrip p h).2, h.2.1⟩,
    fun p h => ⟨(doneResponse_roundtrip p h).1,
      (doneResponse_roundtrip p h).2, h.2.1⟩,
    fun p h => ⟨(exec_packet_roundtrip p h).1, (exec_packet_roundtrip p h).2, h.2.1⟩,
    fun p h => ⟨(memoryRead32_roundtrip p h).1,
      (memoryRead32_roundtrip p h).2, h.2.1⟩,
    fun p h => hardwareId_roundtrip p h,
    fun p h => serialNo_roundtrip p h,
    fun p h => oemPkHash_roundtrip p h⟩

/-- Witness for C8 at concrete packets of several catalog types. -/
theorem codec_roundtrip_witness :
    Exec.decode (Exec.encode ⟨⟨13, 12⟩, 1⟩) = some ⟨⟨13, 12⟩, 1⟩
    ∧ HelloResponse.decode (HelloResponse.encode
        ⟨⟨2, 48⟩, 2, 1, 0, 3, 0, 0, 0, 0, 0, 0⟩)
      = some ⟨⟨2, 48⟩, 2, 1, 0, 3, 0, 0, 0, 0, 0, 0⟩
    ∧ MemoryRead32.decode (MemoryRead32.encode ⟨⟨10, 16⟩, 4096, 16⟩)
      = some ⟨⟨10, 16⟩, 4096, 16⟩
    ∧ EndOfTransfer.decode (EndOfTransfer.encode ⟨⟨4, 16⟩, 0, 6⟩)
      = some ⟨⟨4, 16⟩, 0, 6⟩
    ∧ SerialNo.decode (SerialNo.encode ⟨[222, 173, 190, 239, 0, 17, 34, 51]⟩)
      = some ⟨[222, 173, 190, 239, 0, 17, 34, 51]⟩
    ∧ ReadRequest64.decode (ReadRequest64.encode
        ⟨⟨3, 32⟩, 1, 4294967299, 18446744073709551615⟩)
      = some ⟨⟨3, 32⟩, 1, 4294967299, 18446744073709551615⟩ := by
  obtain ⟨hP, hHReq, hHResp, hRR, hDR, hR32, hR64, hEOT, hDResp, hEx,
    hMR, hHW, hSN, hOPK⟩ := codec_roundtrip
  refine ⟨(hEx ⟨⟨13, 12⟩, 1⟩ (by decide)).1,
    (hHResp ⟨⟨2, 48⟩, 2, 1, 0, 3, 0, 0, 0, 0, 0, 0⟩ (by decide)).1,
    (hMR ⟨⟨10, 16⟩, 4096, 16⟩ (by decide)).1,
    (hEOT ⟨⟨4, 16⟩, 0, 6⟩ (by decide)).1,
    (hSN ⟨[222, 173, 190, 239, 0, 17, 34, 51]⟩ (by decide)).1,
    (hR64 ⟨⟨3, 32⟩, 1, 4294967299, 18446744073709551615⟩ (by decide)).1⟩

end QcBoot
